import Mathlib

/-!
Shallow embedding of `src/chains/opStack/actions/getWithdrawalStatus.ts`
(the withdrawal status resolver of the viem OP Stack extension).

The resolver extracts withdrawals from a transaction receipt, fails with
`ReceiptContainsNoWithdrawalsError` when there are none, otherwise settles
four concurrent queries (Q1 `getL2Output`, Q2 `provenWithdrawals`,
Q3 `finalizedWithdrawals`, Q4 `getTimeToFinalize`) and applies a fixed
decision order to the four settled outcomes.  The embedding takes the
snapshot of the four settled outcomes as an explicit argument
(`Promise.allSettled` is modelled by the `SettledResult` sum), and thrown
exceptions are modelled by `Except`.
-/

namespace OpStack

/-- A withdrawal extracted from a receipt; the resolver only consumes its
`withdrawalHash` (an opaque identifier, modelled as `Nat`). -/
structure Withdrawal where
  withdrawalHash : Nat
deriving DecidableEq, Repr

/-- The part of a `TransactionReceipt` the resolver touches: the transaction
hash (used in the no-withdrawal error), the block number (key of Q1), and the
logs from which withdrawals are extracted, modelled here directly as the
sequence of extractable withdrawals. -/
structure TransactionReceipt where
  transactionHash : Nat
  blockNumber : Nat
  withdrawalLogs : List Withdrawal
deriving DecidableEq, Repr

/-- Modelled from the spec: the `Withdrawal` extraction capability
`extractWithdrawals(receipt) -> sequence<Withdrawal>` (the implementation
`utils/getWithdrawals.ts` is an external collaborator, not part of the
source under study), returning the sequence of withdrawals carried by the
receipt. -/
def getWithdrawals (receipt : TransactionReceipt) : List Withdrawal :=
  receipt.withdrawalLogs

/-- The decoded revert payload attached to a `ContractFunctionRevertedError`:
its (optional) argument list.  The resolver only ever reads `args[0]` and
compares it with a string, so arguments are modelled as strings. -/
structure RevertErrorData where
  args : Option (List String)
deriving DecidableEq, Repr

/-- The `cause` of a query error, as far as the resolver can observe it:
either an instance of `ContractFunctionRevertedError` (carrying optional
decoded data), or any other cause. -/
inductive ErrorCause where
  | contractFunctionReverted (data : Option RevertErrorData)
  | otherCause (message : String)
deriving DecidableEq, Repr

/-- An error rejected by one of the four queries (a JavaScript error value):
a message and an optional `cause`. -/
structure QueryError where
  message : String
  cause : Option ErrorCause
deriving DecidableEq, Repr

/-- Outcome of one settled promise, as produced by `Promise.allSettled`. -/
inductive SettledResult (α : Type) where
  | fulfilled (value : α)
  | rejected (reason : QueryError)
deriving DecidableEq, Repr

/-- The value returned by Q1 (`getL2Output`); the resolver never inspects it,
only whether Q1 settled successfully. -/
structure L2Output where
  outputIndex : Nat
deriving DecidableEq, Repr

/-- The tuple returned by Q2 (`portal.provenWithdrawals`); the resolver
destructures it as `[_, proveTimestamp]` and tests the timestamp for
falsiness (a `0n` bigint is falsy), so the timestamp is a `Nat` and absence
of a proof is `timestamp = 0`. -/
structure ProvenWithdrawal where
  outputRoot : Nat
  timestamp : Nat
  l2OutputIndex : Nat
deriving DecidableEq, Repr

/-- The value returned by Q4 (`getTimeToFinalize`): the remaining
finalization window; `seconds` may be zero or negative once finalization is
eligible, hence `Int`. -/
structure TimeToFinalize where
  seconds : Int
deriving DecidableEq, Repr

/-- The snapshot of the four settled query outcomes, in source order:
Q1 `getL2Output`, Q2 `provenWithdrawals`, Q3 `finalizedWithdrawals`,
Q4 `getTimeToFinalize`. -/
structure QueryOutcomes where
  outputResult : SettledResult L2Output
  proveResult : SettledResult ProvenWithdrawal
  finalizedResult : SettledResult Bool
  timeToFinalizeResult : SettledResult TimeToFinalize
deriving DecidableEq, Repr

/-- `GetWithdrawalStatusReturnType`: the five possible statuses. -/
inductive WithdrawalStatus where
  | waitingToProve
  | readyToProve
  | waitingToFinalize
  | readyToFinalize
  | finalized
deriving DecidableEq, Repr

/-- A value thrown by the resolver: either the
`ReceiptContainsNoWithdrawalsError` built at entry (modelled from the spec
as carrying the transaction hash, its class living outside the studied
source), or a query rejection reason re-thrown verbatim (the `queryError`
constructor is the injection into the thrown-value type; the payload is the
exact rejection reason). -/
inductive ThrownError where
  | receiptContainsNoWithdrawals (transactionHash : Nat)
  | queryError (reason : QueryError)
deriving DecidableEq, Repr

/-- The exact revert string the resolver matches to recognize that the L2
output for the block has not been proposed yet. -/
def outputNotProposedMessage : String :=
  "L2OutputOracle: cannot get output for a block that has not been proposed"

/-- The recognition test the source applies to a Q1 rejection reason:
`error.cause instanceof ContractFunctionRevertedError` and
`error.cause.data?.args?.[0] === outputNotProposedMessage`. -/
def isOutputNotProposedError (e : QueryError) : Bool :=
  match e.cause with
  | some (.contractFunctionReverted (some d)) =>
      match d.args with
      | some (a :: _) => a == outputNotProposedMessage
      | _ => false
  | _ => false

/-- The decision step of `getWithdrawalStatus`, applied once the four
queries have settled: rejection handling of Q1 (with the recognized
not-yet-proposed condition), then of Q2, Q3, Q4, then the value checks in
source order. -/
def resolveStatus (o : QueryOutcomes) : Except QueryError WithdrawalStatus :=
  match o.outputResult with
  | .rejected error =>
      if isOutputNotProposedError error then .ok .waitingToProve
      else .error error
  | .fulfilled _ =>
      match o.proveResult with
      | .rejected reason => .error reason
      | .fulfilled proven =>
          match o.finalizedResult with
          | .rejected reason => .error reason
          | .fulfilled finalized =>
              match o.timeToFinalizeResult with
              | .rejected reason => .error reason
              | .fulfilled t =>
                  if proven.timestamp = 0 then .ok .readyToProve
                  else if finalized then .ok .finalized
                  else if t.seconds > 0 then .ok .waitingToFinalize
                  else .ok .readyToFinalize

/-- The resolver `getWithdrawalStatus`: extract the withdrawals, throw
`ReceiptContainsNoWithdrawalsError` when the first element is absent,
otherwise decide from the snapshot of the four settled query outcomes. -/
def getWithdrawalStatus (receipt : TransactionReceipt)
    (outcomes : QueryOutcomes) : Except ThrownError WithdrawalStatus :=
  match getWithdrawals receipt with
  | [] => .error (.receiptContainsNoWithdrawals receipt.transactionHash)
  | _ :: _ =>
      match resolveStatus outcomes with
      | .ok s => .ok s
      | .error e => .error (.queryError e)

/-- Sample withdrawal for witnesses. -/
def sampleWithdrawal : Withdrawal := ⟨1⟩

/-- Sample receipt carrying one withdrawal. -/
def sampleReceipt : TransactionReceipt := ⟨100, 7, [sampleWithdrawal]⟩

/-- Sample receipt carrying no withdrawal. -/
def emptyReceipt : TransactionReceipt := ⟨200, 9, []⟩

/-- A Q1 rejection reason matching the recognized not-yet-proposed revert. -/
def notProposedError : QueryError :=
  ⟨"execution reverted",
    some (.contractFunctionReverted (some ⟨some [outputNotProposedMessage]⟩))⟩

/-- A generic rejection reason with no cause. -/
def genericError : QueryError := ⟨"network error", none⟩

/-- C1: if Q1 is rejected with the recognized not-yet-published condition,
the resolver returns `waiting-to-prove` whatever the outcomes of Q2, Q3 and
Q4 are. -/
theorem q1NotProposed_waitingToProve (receipt : TransactionReceipt)
    (w : Withdrawal) (ws : List Withdrawal)
    (hw : getWithdrawals receipt = w :: ws)
    (e : QueryError) (o : QueryOutcomes)
    (h1 : o.outputResult = .rejected e)
    (hrec : isOutputNotProposedError e = true) :
    getWithdrawalStatus receipt o = .ok .waitingToProve := by
  simp [getWithdrawalStatus, resolveStatus, hw, h1, hrec]

/-- Witness for C1: a concrete receipt and a snapshot where Q1 is rejected
with the recognized revert and Q2, Q3, Q4 are all rejected too. -/
theorem q1NotProposed_waitingToProve_witness :
    getWithdrawalStatus sampleReceipt
      ⟨.rejected notProposedError, .rejected genericError,
        .rejected genericError, .rejected genericError⟩ = .ok .waitingToProve :=
  q1NotProposed_waitingToProve sampleReceipt sampleWithdrawal [] rfl
    notProposedError _ rfl (by decide)

/-- C2: if the receipt yields zero withdrawals the resolver fails with
`ReceiptContainsNoWithdrawalsError`; the outcome snapshot is universally
quantified and absent from the result, so no query outcome influences the
result. -/
theorem noWithdrawals_error (receipt : TransactionReceipt)
    (hw : getWithdrawals receipt = [])
    (o : QueryOutcomes) :
    getWithdrawalStatus receipt o =
      .error (.receiptContainsNoWithdrawals receipt.transactionHash) := by
  simp [getWithdrawalStatus, hw]

/-- Witness for C2: the empty receipt with an all-rejected snapshot. -/
theorem noWithdrawals_error_witness :
    getWithdrawalStatus emptyReceipt
      ⟨.rejected genericError, .rejected genericError,
        .rejected genericError, .rejected genericError⟩ =
      .error (.receiptContainsNoWithdrawals 200) :=
  noWithdrawals_error emptyReceipt rfl _

/-- C3: with Q1 fulfilled, Q2 fulfilled with a present (nonzero) proof
timestamp and Q3 fulfilled with `true`, the resolver returns `finalized`
for every fulfilled Q4 value, in particular when the remaining window is
positive: the finalization record takes precedence over the timing
window. -/
theorem finalized_over_window (receipt : TransactionReceipt)
    (w : Withdrawal) (ws : List Withdrawal)
    (hw : getWithdrawals receipt = w :: ws)
    (v : L2Output) (p : ProvenWithdrawal) (t : TimeToFinalize)
    (hts : p.timestamp ≠ 0) (o : QueryOutcomes)
    (h1 : o.outputResult = .fulfilled v)
    (h2 : o.proveResult = .fulfilled p)
    (h3 : o.finalizedResult = .fulfilled true)
    (h4 : o.timeToFinalizeResult = .fulfilled t) :
    getWithdrawalStatus receipt o = .ok .finalized := by
  simp [getWithdrawalStatus, resolveStatus, hw, h1, h2, h3, h4, hts]

/-- Witness for C3: proof timestamp 5000, finalization record `true`,
remaining window 120 seconds; the result is `finalized`, not
`waiting-to-finalize`. -/
theorem finalized_over_window_witness :
    getWithdrawalStatus sampleReceipt
      ⟨.fulfilled ⟨3⟩, .fulfilled ⟨11, 5000, 3⟩, .fulfilled true,
        .fulfilled ⟨120⟩⟩ = .ok .finalized :=
  finalized_over_window sampleReceipt sampleWithdrawal [] rfl
    ⟨3⟩ ⟨11, 5000, 3⟩ ⟨120⟩ (by decide) _ rfl rfl rfl rfl

/-- Counterexample to C4 as stated: with Q1 fulfilled, Q2 fulfilled with an
absent (zero) timestamp and Q3 fulfilled with `false`, a rejected Q4 makes
the resolver throw the Q4 reason instead of returning `ready-to-prove` —
the result is not independent of Q4's outcome. -/
theorem readyToProve_q4Rejected_cex :
    getWithdrawalStatus sampleReceipt
      ⟨.fulfilled ⟨3⟩, .fulfilled ⟨11, 0, 3⟩, .fulfilled false,
        .rejected genericError⟩ ≠ .ok .readyToProve := by
  simp [getWithdrawalStatus, resolveStatus, getWithdrawals, sampleReceipt]

/-- C4 amended: with Q1 fulfilled, Q2 fulfilled with an absent (zero) proof
timestamp and Q3 fulfilled with `false`, the resolver returns
`ready-to-prove` irrespective of Q4's value whenever Q4 succeeded (a Q4
rejection is instead propagated as an error). -/
theorem absentTimestamp_readyToProve (receipt : TransactionReceipt)
    (w : Withdrawal) (ws : List Withdrawal)
    (hw : getWithdrawals receipt = w :: ws)
    (v : L2Output) (p : ProvenWithdrawal) (t : TimeToFinalize)
    (hts : p.timestamp = 0) (o : QueryOutcomes)
    (h1 : o.outputResult = .fulfilled v)
    (h2 : o.proveResult = .fulfilled p)
    (h3 : o.finalizedResult = .fulfilled false)
    (h4 : o.timeToFinalizeResult = .fulfilled t) :
    getWithdrawalStatus receipt o = .ok .readyToProve := by
  simp [getWithdrawalStatus, resolveStatus, hw, h1, h2, h3, h4, hts]

/-- Witness for the amended C4: absent timestamp, Q4 fulfilled with a
negative window. -/
theorem absentTimestamp_readyToProve_witness :
    getWithdrawalStatus sampleReceipt
      ⟨.fulfilled ⟨3⟩, .fulfilled ⟨11, 0, 3⟩, .fulfilled false,
        .fulfilled ⟨-5⟩⟩ = .ok .readyToProve :=
  absentTimestamp_readyToProve sampleReceipt sampleWithdrawal [] rfl
    ⟨3⟩ ⟨11, 0, 3⟩ ⟨-5⟩ rfl _ rfl rfl rfl rfl

/-- C5: with Q1 to Q4 all fulfilled, a present (nonzero) proof timestamp
and a `false` finalization record, the resolver returns
`waiting-to-finalize` when the remaining window is strictly positive and
`ready-to-finalize` when it is less than or equal to zero. -/
theorem window_decides_finalizeStatus (receipt : TransactionReceipt)
    (w : Withdrawal) (ws : List Withdrawal)
    (hw : getWithdrawals receipt = w :: ws)
    (v : L2Output) (p : ProvenWithdrawal) (t : TimeToFinalize)
    (hts : p.timestamp ≠ 0) (o : QueryOutcomes)
    (h1 : o.outputResult = .fulfilled v)
    (h2 : o.proveResult = .fulfilled p)
    (h3 : o.finalizedResult = .fulfilled false)
    (h4 : o.timeToFinalizeResult = .fulfilled t) :
    (t.seconds > 0 → getWithdrawalStatus receipt o = .ok .waitingToFinalize) ∧
    (t.seconds ≤ 0 → getWithdrawalStatus receipt o = .ok .readyToFinalize) := by
  refine ⟨fun hsec => ?_, fun hsec => ?_⟩
  · simp [getWithdrawalStatus, resolveStatus, hw, h1, h2, h3, h4, hts, hsec]
  · have hsec2 : ¬ t.seconds > 0 := by omega
    simp [getWithdrawalStatus, resolveStatus, hw, h1, h2, h3, h4, hts, hsec2]

/-- Witness for C5: window 120 gives `waiting-to-finalize` and window
exactly 0 gives `ready-to-finalize`. -/
theorem window_decides_finalizeStatus_witness :
    getWithdrawalStatus sampleReceipt
      ⟨.fulfilled ⟨3⟩, .fulfilled ⟨11, 5000, 3⟩, .fulfilled false,
        .fulfilled ⟨120⟩⟩ = .ok .waitingToFinalize ∧
    getWithdrawalStatus sampleReceipt
      ⟨.fulfilled ⟨3⟩, .fulfilled ⟨11, 5000, 3⟩, .fulfilled false,
        .fulfilled ⟨0⟩⟩ = .ok .readyToFinalize :=
  ⟨(window_decides_finalizeStatus sampleReceipt sampleWithdrawal [] rfl
      ⟨3⟩ ⟨11, 5000, 3⟩ ⟨120⟩ (by decide) _ rfl rfl rfl rfl).1 (by decide),
   (window_decides_finalizeStatus sampleReceipt sampleWithdrawal [] rfl
      ⟨3⟩ ⟨11, 5000, 3⟩ ⟨0⟩ (by decide) _ rfl rfl rfl rfl).2 (by decide)⟩

/-- A second generic rejection reason, distinct from `genericError`. -/
def timeoutError : QueryError := ⟨"request timed out", none⟩

/-- A third generic rejection reason, with a non-revert cause. -/
def decodeError : QueryError :=
  ⟨"malformed response", some (.otherCause "decode failure")⟩

/-- C6: every rejection other than the recognized Q1 condition is
propagated verbatim: a Q1 rejection whose reason fails the recognition test
is thrown whatever Q2, Q3, Q4 settled to (including all fulfilled), and a
Q2, Q3 or Q4 rejection reaching its check is thrown unchanged. -/
theorem failures_propagate (receipt : TransactionReceipt)
    (w : Withdrawal) (ws : List Withdrawal)
    (hw : getWithdrawals receipt = w :: ws)
    (o : QueryOutcomes) :
    (∀ e, o.outputResult = .rejected e → isOutputNotProposedError e = false →
      getWithdrawalStatus receipt o = .error (.queryError e)) ∧
    (∀ v e, o.outputResult = .fulfilled v → o.proveResult = .rejected e →
      getWithdrawalStatus receipt o = .error (.queryError e)) ∧
    (∀ v p e, o.outputResult = .fulfilled v → o.proveResult = .fulfilled p →
      o.finalizedResult = .rejected e →
      getWithdrawalStatus receipt o = .error (.queryError e)) ∧
    (∀ v p b e, o.outputResult = .fulfilled v → o.proveResult = .fulfilled p →
      o.finalizedResult = .fulfilled b → o.timeToFinalizeResult = .rejected e →
      getWithdrawalStatus receipt o = .error (.queryError e)) := by
  refine ⟨fun e h1 hrec => ?_, fun v e h1 h2 => ?_,
    fun v p e h1 h2 h3 => ?_, fun v p b e h1 h2 h3 h4 => ?_⟩
  · simp [getWithdrawalStatus, resolveStatus, hw, h1, hrec]
  · simp [getWithdrawalStatus, resolveStatus, hw, h1, h2]
  · simp [getWithdrawalStatus, resolveStatus, hw, h1, h2, h3]
  · simp [getWithdrawalStatus, resolveStatus, hw, h1, h2, h3, h4]

/-- Witness for C6: Q1 rejected with a non-recognized reason while Q2, Q3
and Q4 all succeeded; the Q1 reason is thrown verbatim. -/
theorem failures_propagate_witness :
    getWithdrawalStatus sampleReceipt
      ⟨.rejected decodeError, .fulfilled ⟨11, 5000, 3⟩, .fulfilled false,
        .fulfilled ⟨120⟩⟩ = .error (.queryError decodeError) :=
  (failures_propagate sampleReceipt sampleWithdrawal [] rfl _).1
    decodeError rfl (by decide)

/-- C7: on every receipt and every outcome snapshot the resolver produces
either one of the exactly five statuses or an error; no other value is
possible. -/
theorem resolver_total_five_statuses (receipt : TransactionReceipt)
    (o : QueryOutcomes) :
    (∃ e, getWithdrawalStatus receipt o = .error e) ∨
    getWithdrawalStatus receipt o = .ok .waitingToProve ∨
    getWithdrawalStatus receipt o = .ok .readyToProve ∨
    getWithdrawalStatus receipt o = .ok .waitingToFinalize ∨
    getWithdrawalStatus receipt o = .ok .readyToFinalize ∨
    getWithdrawalStatus receipt o = .ok .finalized := by
  match h : getWithdrawalStatus receipt o with
  | .error e => exact Or.inl ⟨e, rfl⟩
  | .ok s => cases s <;> simp

/-- The recognition condition as claim C8 states it: the rejection reason's
cause is a `ContractFunctionRevertedError` whose first revert argument
equals the exact revert string. -/
def checkpointNotYetPublishedSpec (e : QueryError) : Prop :=
  ∃ (d : RevertErrorData) (rest : List String),
    e.cause = some (.contractFunctionReverted (some d)) ∧
    d.args = some (outputNotProposedMessage :: rest)

/-- The recognition test of the source agrees exactly with the condition
claim C8 describes. -/
theorem isOutputNotProposedError_iff_spec (e : QueryError) :
    isOutputNotProposedError e = true ↔ checkpointNotYetPublishedSpec e := by
  obtain ⟨msg, cause⟩ := e
  match cause with
  | none =>
      simp [isOutputNotProposedError, checkpointNotYetPublishedSpec]
  | some (.otherCause m) =>
      simp [isOutputNotProposedError, checkpointNotYetPublishedSpec]
  | some (.contractFunctionReverted none) =>
      simp [isOutputNotProposedError, checkpointNotYetPublishedSpec]
  | some (.contractFunctionReverted (some ⟨none⟩)) =>
      simp [isOutputNotProposedError, checkpointNotYetPublishedSpec]
  | some (.contractFunctionReverted (some ⟨some []⟩)) =>
      simp [isOutputNotProposedError, checkpointNotYetPublishedSpec]
  | some (.contractFunctionReverted (some ⟨some (a :: rest)⟩)) =>
      simp [isOutputNotProposedError, checkpointNotYetPublishedSpec]

/-- C8: with a nonempty extraction and Q1 rejected with reason `e`, the
resolver returns `waiting-to-prove` if and only if the cause of `e` is a
`ContractFunctionRevertedError` whose first revert argument equals the
exact revert string, and when `e` does not match that condition the reason
is propagated as the thrown error. -/
theorem q1_recognition_iff (receipt : TransactionReceipt)
    (w : Withdrawal) (ws : List Withdrawal)
    (hw : getWithdrawals receipt = w :: ws)
    (e : QueryError) (o : QueryOutcomes)
    (h1 : o.outputResult = .rejected e) :
    (getWithdrawalStatus receipt o = .ok .waitingToProve ↔
      checkpointNotYetPublishedSpec e) ∧
    (¬ checkpointNotYetPublishedSpec e →
      getWithdrawalStatus receipt o = .error (.queryError e)) := by
  have hspec := isOutputNotProposedError_iff_spec e
  by_cases hrec : isOutputNotProposedError e = true
  · refine ⟨⟨fun _ => hspec.mp hrec, fun _ => ?_⟩, fun hn => absurd (hspec.mp hrec) hn⟩
    simp [getWithdrawalStatus, resolveStatus, hw, h1, hrec]
  · have hres : getWithdrawalStatus receipt o = .error (.queryError e) := by
      simp only [Bool.not_eq_true] at hrec
      simp [getWithdrawalStatus, resolveStatus, hw, h1, hrec]
    refine ⟨⟨fun h => ?_, fun hs => absurd (hspec.mpr hs) hrec⟩, fun _ => hres⟩
    rw [hres] at h
    exact Except.noConfusion h

/-- Witness for C8: a reason whose cause is a revert error carrying the
exact string but with a second argument behind it is recognized, with Q2,
Q3 and Q4 fulfilled. -/
theorem q1_recognition_iff_witness :
    getWithdrawalStatus sampleReceipt
      ⟨.rejected ⟨"reverted",
          some (.contractFunctionReverted
            (some ⟨some [outputNotProposedMessage, "extra"]⟩))⟩,
        .fulfilled ⟨11, 5000, 3⟩, .fulfilled false, .fulfilled ⟨120⟩⟩ =
      .ok .waitingToProve :=
  (q1_recognition_iff sampleReceipt sampleWithdrawal [] rfl _ _ rfl).1.mpr
    ⟨⟨some [outputNotProposedMessage, "extra"]⟩, ["extra"], rfl, rfl⟩

/-- C9: with Q1 fulfilled, simultaneous rejections among Q2, Q3, Q4 are
resolved by fixed priority: a Q2 rejection is thrown whatever Q3 and Q4
settled to; with Q2 fulfilled, a Q3 rejection is thrown whatever Q4 settled
to; with Q2 and Q3 fulfilled, a Q4 rejection is thrown. -/
theorem rejection_priority (receipt : TransactionReceipt)
    (w : Withdrawal) (ws : List Withdrawal)
    (hw : getWithdrawals receipt = w :: ws)
    (v : L2Output) (o : QueryOutcomes)
    (h1 : o.outputResult = .fulfilled v) :
    (∀ e, o.proveResult = .rejected e →
      getWithdrawalStatus receipt o = .error (.queryError e)) ∧
    (∀ p e, o.proveResult = .fulfilled p → o.finalizedResult = .rejected e →
      getWithdrawalStatus receipt o = .error (.queryError e)) ∧
    (∀ p b e, o.proveResult = .fulfilled p → o.finalizedResult = .fulfilled b →
      o.timeToFinalizeResult = .rejected e →
      getWithdrawalStatus receipt o = .error (.queryError e)) := by
  refine ⟨fun e h2 => ?_, fun p e h2 h3 => ?_, fun p b e h2 h3 h4 => ?_⟩
  · simp [getWithdrawalStatus, resolveStatus, hw, h1, h2]
  · simp [getWithdrawalStatus, resolveStatus, hw, h1, h2, h3]
  · simp [getWithdrawalStatus, resolveStatus, hw, h1, h2, h3, h4]

/-- Witness for C9: Q2, Q3 and Q4 rejected with three distinct reasons; the
thrown error is the Q2 reason, not the Q3 or Q4 one. -/
theorem rejection_priority_witness :
    getWithdrawalStatus sampleReceipt
      ⟨.fulfilled ⟨3⟩, .rejected genericError, .rejected timeoutError,
        .rejected decodeError⟩ = .error (.queryError genericError) :=
  (rejection_priority sampleReceipt sampleWithdrawal [] rfl ⟨3⟩ _ rfl).1
    genericError rfl

/-- C10: two receipts whose extracted withdrawal sequences have the same
first element produce, on an identical outcome snapshot, the identical
status or error: later withdrawals (and the rest of the receipt) never
influence the result. -/
theorem result_depends_on_first_withdrawal (r1 r2 : TransactionReceipt)
    (w : Withdrawal)
    (h1 : (getWithdrawals r1).head? = some w)
    (h2 : (getWithdrawals r2).head? = some w)
    (o : QueryOutcomes) :
    getWithdrawalStatus r1 o = getWithdrawalStatus r2 o := by
  match hw1 : getWithdrawals r1 with
  | [] => rw [hw1] at h1; exact absurd h1 (by simp)
  | _ :: _ =>
      match hw2 : getWithdrawals r2 with
      | [] => rw [hw2] at h2; exact absurd h2 (by simp)
      | _ :: _ => simp [getWithdrawalStatus, hw1, hw2]

/-- Witness for C10: two receipts with different transaction hashes, block
numbers and tails but the same first withdrawal give the same result. -/
theorem result_depends_on_first_withdrawal_witness :
    getWithdrawalStatus sampleReceipt
      ⟨.fulfilled ⟨3⟩, .fulfilled ⟨11, 5000, 3⟩, .fulfilled false,
        .fulfilled ⟨7⟩⟩ =
    getWithdrawalStatus ⟨300, 12, [sampleWithdrawal, ⟨2⟩, ⟨3⟩]⟩
      ⟨.fulfilled ⟨3⟩, .fulfilled ⟨11, 5000, 3⟩, .fulfilled false,
        .fulfilled ⟨7⟩⟩ :=
  result_depends_on_first_withdrawal sampleReceipt
    ⟨300, 12, [sampleWithdrawal, ⟨2⟩, ⟨3⟩]⟩ sampleWithdrawal rfl rfl _

end OpStack
